import Mathlib

/-!
Verification of the Sentinel defense-platform backend (Express/TypeScript).

This file shallowly embeds the parts of the source that the checked claims
touch:

* `auth.ts` / `authBypass.ts` — the disabled authentication middlewares
  (`isAuthenticated`, `hasRole`, `hasSubscriptionAccess`,
  `hasMeshNetworkAccess`, `forceEmergencyAuth`);
* `routes.ts` — the report / blocked-frequency route handlers and the
  WebSocket message handler (`wss.on('connection')` → `ws.on('message')`);
* `storage.ts` — the in-memory `MemStorage` implementation (JS `Map`s plus
  per-entity id counters);
* `adsDestroyer.ts` — the `ADSDestroyerController` subprocess wrapper and
  its TypeScript fallback paths;
* `forensicsAnalyzer.ts` — the `ForensicsAnalyzer` constant "detection"
  logic and the chain-of-custody checksum.

Modelling conventions: JS numbers are embedded as `ℚ` (the claims never
exercise NaN/Infinity/precision edge cases; where a JS falsy check touches
`0` or `''` the truthiness is modelled explicitly); `Math.round` is
`⌊x + 1/2⌋`, which is JS round-half-up; JS `Map` is an insertion-ordered
association list with unique keys; effectful handlers become pure functions
returning the new state together with the list of emitted sends; opaque
external primitives (SHA-256, `Math.sqrt`, `Math.log10`, `Math.random`,
`JSON.parse` of subprocess stdout) are parameters of the embedding, since
no checked claim depends on their values.
-/

namespace Sentinel

/-! ## Authentication layer (`auth.ts`, `authBypass.ts`) -/

/-- `Express.User` as declared in the global type augmentation of `auth.ts`. -/
structure AuthUser where
  id : Nat
  username : String
  email : String
  name : Option String
  department : Option String
  role : String
deriving Repr, DecidableEq

/-- An incoming HTTP request, as far as the middlewares can observe it:
headers, an optional session token and the (possibly absent) `req.user`. -/
structure HttpRequest where
  headers : List (String × String)
  session : Option String
  user : Option AuthUser
deriving Repr, DecidableEq

/-- Outcome of running an Express middleware on a request: either it calls
`next()` (with the value it left in `req.user`) or it terminates the
request with an error status. -/
inductive MwOutcome where
  | next (user : Option AuthUser)
  | reject (status : Nat)
deriving Repr, DecidableEq

/-- `auth.ts`: `defaultUser`, the hardcoded admin injected by every auth
middleware. -/
def defaultUser : AuthUser :=
  { id := 999
    username := "Admin"
    email := "admin@sentinel.local"
    name := some "System Administrator"
    department := some "SENTINEL Command"
    role := "admin" }

/-- `authBypass.ts`: the emergency user created by `forceEmergencyAuth`. -/
def emergencyUser : AuthUser :=
  { id := 999
    username := "Emergency_Admin"
    email := "override@sentinel.emergency"
    name := some "Emergency Override Active"
    department := some "SENTINEL Command"
    role := "admin" }

/-- `auth.ts` `isAuthenticated`: always sets `req.user = defaultUser` and
calls `next()`, ignoring the request entirely. -/
def isAuthenticated (_req : HttpRequest) : MwOutcome :=
  .next (some defaultUser)

/-- `auth.ts` `hasRole(roles)`: the returned middleware ignores both the
request and `roles` and always proceeds with the default admin. -/
def hasRole (_roles : List String) (_req : HttpRequest) : MwOutcome :=
  .next (some defaultUser)

/-- `auth.ts` `hasSubscriptionAccess`: always proceeds with the default
admin. -/
def hasSubscriptionAccess (_req : HttpRequest) : MwOutcome :=
  .next (some defaultUser)

/-- `auth.ts` `hasMeshNetworkAccess`: always proceeds with the default
admin. -/
def hasMeshNetworkAccess (_req : HttpRequest) : MwOutcome :=
  .next (some defaultUser)

/-- `authBypass.ts` `forceEmergencyAuth`: unconditionally sets `req.user`
to the emergency admin and calls `next()`. -/
def forceEmergencyAuth (_req : HttpRequest) : MwOutcome :=
  .next (some emergencyUser)

/-! ## JS `Map` model

`storage.ts` `MemStorage` keeps each entity in a JS `Map<number, T>`.
A JS `Map` is an insertion-ordered collection with unique keys; we embed
it as an association list, with `set` replacing in place (JS `Map.set`
keeps the original insertion position on overwrite) and `delete`
returning whether the key was present. -/

abbrev JsMap (α : Type) : Type := List (Nat × α)

/-- `Map.get(k)`: the (with unique keys, only) entry for `k`. -/
def mapGet {α : Type} (m : JsMap α) (k : Nat) : Option α :=
  match m with
  | [] => none
  | p :: t => if p.1 = k then some p.2 else mapGet t k

/-- `Map.has(k)`. -/
def mapHas {α : Type} (m : JsMap α) (k : Nat) : Bool :=
  match m with
  | [] => false
  | p :: t => if p.1 = k then true else mapHas t k

/-- `Map.set(k, v)`: overwrite in place when present, else append. -/
def mapSet {α : Type} (m : JsMap α) (k : Nat) (v : α) : JsMap α :=
  if mapHas m k then m.map (fun p => if p.1 = k then (k, v) else p)
  else m ++ [(k, v)]

/-- Removal of every entry keyed `k`, preserving order. -/
def mapErase {α : Type} (m : JsMap α) (k : Nat) : JsMap α :=
  match m with
  | [] => []
  | p :: t => if p.1 = k then mapErase t k else p :: mapErase t k

/-- `Map.delete(k)`: returns whether `k` was present, plus the new map. -/
def mapDelete {α : Type} (m : JsMap α) (k : Nat) : Bool × JsMap α :=
  if mapHas m k then (true, mapErase m k) else (false, m)

/-! ## Storage records (`shared/schema` rows as `MemStorage` builds them)

JSON-object columns (`frequencyData`, `locationData`, …) are embedded as
opaque `Option String` blobs; an object value is always truthy in JS, so
`x || null` on them is the identity on present values.  `Date` values are
epoch milliseconds (`Nat`), supplied to each operation as a `now`
parameter standing for `new Date()`. -/

structure UserRec where
  id : Nat
  username : String
  email : String
  password : String
  name : Option String
  department : Option String
  role : String
  createdAt : Nat
  lastLogin : Option Nat
deriving Repr, DecidableEq

structure NewUser where
  username : String
  password : String
  email : String
  name : Option String
  department : Option String
  role : Option String
deriving Repr, DecidableEq

structure ForensicReport where
  id : Nat
  userId : Nat
  title : String
  description : Option String
  frequencyData : Option String
  locationData : Option String
  deviceData : Option String
  mlClassification : Option String
  reportData : Option String
  createdAt : Nat
  timestamp : Nat
deriving Repr, DecidableEq

structure NewForensicReport where
  userId : Nat
  title : String
  description : Option String
  frequencyData : Option String
  locationData : Option String
  deviceData : Option String
  mlClassification : Option String
  reportData : Option String
  timestamp : Option Nat
deriving Repr, DecidableEq

structure BlockedFrequency where
  id : Nat
  userId : Nat
  frequency : ℚ
  bandwidth : ℚ
  name : Option String
  description : Option String
  isCustom : Bool
  createdAt : Nat
deriving Repr, DecidableEq

structure NewBlockedFrequency where
  userId : Nat
  frequency : ℚ
  bandwidth : ℚ
  name : Option String
  description : Option String
  isCustom : Option Bool
deriving Repr, DecidableEq

/-- JS `s || null` on an optional string column: the empty string is
falsy, so it collapses to `null`. -/
def jsStrOr (s : Option String) : Option String :=
  match s with
  | some v => if v = "" then none else some v
  | none => none

/-- `MemStorage`: the in-memory maps and id counters of `storage.ts`.
The claims touch users, forensic reports and blocked frequencies; the
remaining entity maps (`subscriptions`, `meshDevices`, `mobileDevices`,
`mobileAlerts`) follow the identical counter/`Map` pattern and are not
modelled. -/
structure MemStorage where
  users : JsMap UserRec
  reports : JsMap ForensicReport
  blockedFrequencies : JsMap BlockedFrequency
  userIdCounter : Nat
  reportIdCounter : Nat
  blockedFrequencyIdCounter : Nat
deriving Repr, DecidableEq

/-- The freshly-constructed `MemStorage` before the two demo-user inserts
performed by the constructor body. -/
def emptyStorage : MemStorage :=
  { users := []
    reports := []
    blockedFrequencies := []
    userIdCounter := 1
    reportIdCounter := 1
    blockedFrequencyIdCounter := 1 }

/-- `MemStorage.getUser`. -/
def getUser (st : MemStorage) (id : Nat) : Option UserRec :=
  mapGet st.users id

/-- `MemStorage.createUser`: assigns the current `userIdCounter` (post-
incrementing it), applies the `||`-defaults and stores the row. -/
def createUser (now : Nat) (st : MemStorage) (u : NewUser) :
    UserRec × MemStorage :=
  let id := st.userIdCounter
  let user : UserRec :=
    { username := u.username
      email := u.email
      password := u.password
      name := jsStrOr u.name
      department := jsStrOr u.department
      role := (jsStrOr u.role).getD "user"
      id := id
      createdAt := now
      lastLogin := none }
  (user, { st with users := mapSet st.users id user, userIdCounter := id + 1 })

/-- `MemStorage.getReport`. -/
def getReport (st : MemStorage) (id : Nat) : Option ForensicReport :=
  mapGet st.reports id

/-- `MemStorage.createReport`. -/
def createReport (now : Nat) (st : MemStorage) (r : NewForensicReport) :
    ForensicReport × MemStorage :=
  let id := st.reportIdCounter
  let newReport : ForensicReport :=
    { userId := r.userId
      title := r.title
      description := jsStrOr r.description
      frequencyData := r.frequencyData
      locationData := r.locationData
      deviceData := r.deviceData
      mlClassification := r.mlClassification
      reportData := r.reportData
      id := id
      createdAt := now
      timestamp := r.timestamp.getD now }
  (newReport, { st with reports := mapSet st.reports id newReport,
                        reportIdCounter := id + 1 })

/-- `Partial<NewForensicReport>` as produced by the zod `.partial()`
parse: absent keys are stripped, so the spread `{ ...report, ...update }`
overwrites exactly the present fields. -/
structure UpdateForensicReport where
  userId : Option Nat
  title : Option String
  description : Option (Option String)
  frequencyData : Option (Option String)
  locationData : Option (Option String)
  deviceData : Option (Option String)
  mlClassification : Option (Option String)
  reportData : Option (Option String)
  timestamp : Option Nat
deriving Repr, DecidableEq

/-- The object spread `{ ...report, ...updateData }`. -/
def mergeReport (rep : ForensicReport) (u : UpdateForensicReport) :
    ForensicReport :=
  { rep with
    userId := u.userId.getD rep.userId
    title := u.title.getD rep.title
    description := u.description.getD rep.description
    frequencyData := u.frequencyData.getD rep.frequencyData
    locationData := u.locationData.getD rep.locationData
    deviceData := u.deviceData.getD rep.deviceData
    mlClassification := u.mlClassification.getD rep.mlClassification
    reportData := u.reportData.getD rep.reportData
    timestamp := u.timestamp.getD rep.timestamp }

/-- `MemStorage.updateReport`: `undefined` on a missing id, otherwise the
spread-merged row is stored back. -/
def updateReport (st : MemStorage) (id : Nat) (u : UpdateForensicReport) :
    Option ForensicReport × MemStorage :=
  match mapGet st.reports id with
  | none => (none, st)
  | some rep =>
      let updated := mergeReport rep u
      (some updated, { st with reports := mapSet st.reports id updated })

/-- `MemStorage.deleteReport`: JS `Map.delete` semantics. -/
def deleteReport (st : MemStorage) (id : Nat) : Bool × MemStorage :=
  let r := mapDelete st.reports id
  (r.1, { st with reports := r.2 })

/-- `MemStorage.getBlockedFrequency`. -/
def getBlockedFrequency (st : MemStorage) (id : Nat) : Option BlockedFrequency :=
  mapGet st.blockedFrequencies id

/-- `MemStorage.createBlockedFrequency`. -/
def createBlockedFrequency (now : Nat) (st : MemStorage)
    (f : NewBlockedFrequency) : BlockedFrequency × MemStorage :=
  let id := st.blockedFrequencyIdCounter
  let newFrequency : BlockedFrequency :=
    { userId := f.userId
      frequency := f.frequency
      bandwidth := f.bandwidth
      name := jsStrOr f.name
      description := jsStrOr f.description
      isCustom := f.isCustom.getD false
      id := id
      createdAt := now }
  (newFrequency,
    { st with blockedFrequencies := mapSet st.blockedFrequencies id newFrequency,
              blockedFrequencyIdCounter := id + 1 })

/-- `Partial<NewBlockedFrequency>` after the zod `.partial()` parse. -/
structure UpdateBlockedFrequency where
  userId : Option Nat
  frequency : Option ℚ
  bandwidth : Option ℚ
  name : Option (Option String)
  description : Option (Option String)
  isCustom : Option Bool
deriving Repr, DecidableEq

/-- The object spread `{ ...frequency, ...updateData }`. -/
def mergeBlockedFrequency (f : BlockedFrequency) (u : UpdateBlockedFrequency) :
    BlockedFrequency :=
  { f with
    userId := u.userId.getD f.userId
    frequency := u.frequency.getD f.frequency
    bandwidth := u.bandwidth.getD f.bandwidth
    name := u.name.getD f.name
    description := u.description.getD f.description
    isCustom := u.isCustom.getD f.isCustom }

/-- `MemStorage.updateBlockedFrequency`. -/
def updateBlockedFrequency (st : MemStorage) (id : Nat)
    (u : UpdateBlockedFrequency) : Option BlockedFrequency × MemStorage :=
  match mapGet st.blockedFrequencies id with
  | none => (none, st)
  | some f =>
      let updated := mergeBlockedFrequency f u
      (some updated,
        { st with blockedFrequencies := mapSet st.blockedFrequencies id updated })

/-- `MemStorage.deleteBlockedFrequency`. -/
def deleteBlockedFrequency (st : MemStorage) (id : Nat) : Bool × MemStorage :=
  let r := mapDelete st.blockedFrequencies id
  (r.1, { st with blockedFrequencies := r.2 })

/-- The id-counter invariant of `MemStorage`: every stored key is
strictly below its entity's counter. -/
def countersOK (st : MemStorage) : Bool :=
  st.users.all (fun p => p.1 < st.userIdCounter) &&
  st.reports.all (fun p => p.1 < st.reportIdCounter) &&
  st.blockedFrequencies.all (fun p => p.1 < st.blockedFrequencyIdCounter)

/-! ## Route handlers (`routes.ts`)

Each handler is embedded as a pure function from the authenticated user
(`req.user!`, installed by the middlewares above), the parsed
`req.params.id` (`none` models the `isNaN(parseInt(...))` branch), the
validated body where there is one, and the current storage state, to the
HTTP status plus body/state.  Body validation failures (zod → 400) and
the catch-all 500 branches are outside every claim and not modelled. -/

/-- `GET /api/reports/:id` (routes.ts): 400 on a non-numeric id, 404 when
absent, 403 when a non-admin reads someone else's report, else 200. -/
def getReportRoute (user : AuthUser) (idParam : Option Nat) (st : MemStorage) :
    Nat × Option ForensicReport :=
  match idParam with
  | none => (400, none)
  | some id =>
      match getReport st id with
      | none => (404, none)
      | some report =>
          if user.role ≠ "admin" ∧ report.userId ≠ user.id then (403, none)
          else (200, some report)

/-- `DELETE /api/reports/:id` (routes.ts). -/
def deleteReportRoute (user : AuthUser) (idParam : Option Nat)
    (st : MemStorage) : Nat × MemStorage :=
  match idParam with
  | none => (400, st)
  | some id =>
      match getReport st id with
      | none => (404, st)
      | some report =>
          if user.role ≠ "admin" ∧ report.userId ≠ user.id then (403, st)
          else
            let r := deleteReport st id
            if r.1 then (204, r.2) else (404, r.2)

/-- `PUT /api/blocked-frequencies/:id` (routes.ts). -/
def putBlockedFrequencyRoute (user : AuthUser) (idParam : Option Nat)
    (body : UpdateBlockedFrequency) (st : MemStorage) :
    Nat × Option BlockedFrequency × MemStorage :=
  match idParam with
  | none => (400, none, st)
  | some id =>
      match getBlockedFrequency st id with
      | none => (404, none, st)
      | some frequency =>
          if user.role ≠ "admin" ∧ frequency.userId ≠ user.id then
            (403, none, st)
          else
            let r := updateBlockedFrequency st id body
            match r.1 with
            | none => (404, none, r.2)
            | some updated => (200, some updated, r.2)

/-- `DELETE /api/blocked-frequencies/:id` (routes.ts). -/
def deleteBlockedFrequencyRoute (user : AuthUser) (idParam : Option Nat)
    (st : MemStorage) : Nat × MemStorage :=
  match idParam with
  | none => (400, st)
  | some id =>
      match getBlockedFrequency st id with
      | none => (404, st)
      | some frequency =>
          if user.role ≠ "admin" ∧ frequency.userId ≠ user.id then (403, st)
          else
            let r := deleteBlockedFrequency st id
            if r.1 then (204, r.2) else (404, r.2)

/-! ## WebSocket fan-out relay (`routes.ts`, `wss.on('connection')`)

A connected socket is a `Client` (`wss.clients` membership plus its
`readyState === WebSocket.OPEN` flag).  The inbound payload is modelled
after `JSON.parse`: `none` is an unparseable payload (the `catch` branch),
`some msg` a parsed envelope already dispatched on its `type` tag.  The
handler returns the connected-client list (which no message branch
modifies) together with the ordered list of `(recipient id, payload)`
sends it performs.  The two nested payload locations the code probes
(`data.x || data.data?.x`) are collapsed into one optional field.  Only
the branches the claims touch are embedded; the remaining broadcast-style
cases (`emergency_anti_laser_sonic`, `grudge_message`, …) follow the same
all-open-clients pattern as `frequency_detected`. -/

structure Client where
  id : Nat
  isOpen : Bool
deriving Repr, DecidableEq

/-- JS `Math.round`: round half away from zero is half-up for the values
here; `Math.round(x) = ⌊x + 0.5⌋`. -/
def jsRound (x : ℚ) : ℤ := ⌊x + 1/2⌋

/-- JS `x || dflt` on an optional numeric field: `0` (and absence) is
falsy. -/
def jsNumOr (x : Option ℚ) (dflt : ℚ) : ℚ :=
  match x with
  | some v => if v = 0 then dflt else v
  | none => dflt

/-- Truthiness of `data.frequency || data.data?.frequency` guarding the
neutralize branches. -/
def qTruthy (x : Option ℚ) : Bool :=
  match x with
  | some v => v != 0
  | none => false

/-- `case 'neutralize_frequency'`:
`Math.round(Math.min(100, 50 + (intensity * 0.5) + (aiAssisted ? 15 : 0)))`. -/
def effectivenessScore (intensity : ℚ) (aiAssisted : Bool) : ℤ :=
  jsRound (min 100 (50 + intensity * (1/2) + (if aiAssisted then 15 else 0)))

/-- `case 'mesh_neutralize_frequency'`:
`deviceIds && deviceIds.length > 1 ? Math.min(20, deviceIds.length * 2) : 0`. -/
def meshBoost (deviceIds : Option (List String)) : ℤ :=
  match deviceIds with
  | some ids => if 1 < ids.length then min 20 (2 * (ids.length : ℤ)) else 0
  | none => 0

/-- `meshEffectivenessScore = Math.min(100, base + boost)`. -/
def meshEffectivenessScore (intensity : ℚ) (aiAssisted : Bool)
    (deviceIds : Option (List String)) : ℤ :=
  min 100 (effectivenessScore intensity aiAssisted + meshBoost deviceIds)

inductive WsIn where
  | ping
  | frequencyDetected (frequency confidence : ℚ)
  | neutralizeFrequency (frequency : Option ℚ) (bandwidth : Option ℚ)
      (intensity : Option ℚ) (aiAssisted : Bool)
  | meshNeutralizeFrequency (frequency : Option ℚ) (bandwidth : ℚ)
      (intensity : ℚ) (aiAssisted : Bool) (deviceIds : Option (List String))
      (applyGlobalCountermeasures : Bool)
  | unknown
deriving Repr, DecidableEq

inductive WsOut where
  | pong
  | frequencyAlert (frequency confidence : ℚ)
  | frequencyNeutralized (frequency bandwidth : ℚ) (effectivenessScore : ℤ)
      (aiAssisted : Bool) (meshEnhanced : Bool)
  | meshFrequencyNeutralized (frequency bandwidth : ℚ)
      (effectivenessScore : ℤ) (aiAssisted : Bool) (deviceCount : Nat)
      (radius : Nat) (globalProtection : Bool)
  | errorMsg (message : String)
deriving Repr, DecidableEq

/-- The sends of `client.send(...)` loops over `wss.clients` guarded by
`readyState === WebSocket.OPEN`. -/
def broadcastOpen (clients : List Client) (msg : WsOut) : List (Nat × WsOut) :=
  (clients.filter (fun c => c.isOpen)).map (fun c => (c.id, msg))

/-- `ws.on('message')`: the full try/switch/catch body.  `parsed = none`
is the `catch` path of `JSON.parse`. -/
def handleWsMessage (clients : List Client) (sender : Client)
    (parsed : Option WsIn) : List Client × List (Nat × WsOut) :=
  match parsed with
  | none => (clients, [(sender.id, .errorMsg "Invalid message format")])
  | some .ping => (clients, [(sender.id, .pong)])
  | some (.frequencyDetected f conf) =>
      (clients, broadcastOpen clients (.frequencyAlert f conf))
  | some (.neutralizeFrequency fOpt bOpt iOpt ai) =>
      if qTruthy fOpt then
        let frequency := jsNumOr fOpt 0
        let bandwidth := jsNumOr bOpt 2000
        let intensity := jsNumOr iOpt 75
        let score := effectivenessScore intensity ai
        (clients, broadcastOpen clients
          (.frequencyNeutralized frequency bandwidth score ai false))
      else (clients, [])
  | some (.meshNeutralizeFrequency fOpt bandwidth intensity ai deviceIds global) =>
      if qTruthy fOpt then
        let frequency := jsNumOr fOpt 0
        let score := meshEffectivenessScore intensity ai deviceIds
        -- `deviceCount: deviceIds?.length || 1` (a length of 0 is falsy)
        let deviceCount :=
          match deviceIds with
          | some l => if l.length = 0 then 1 else l.length
          | none => 1
        let radius : Nat := if global then 6436 else 1000
        (clients,
          broadcastOpen clients
            (.meshFrequencyNeutralized frequency bandwidth score ai
              deviceCount radius global) ++
          broadcastOpen clients
            (.frequencyNeutralized frequency bandwidth score ai true))
      else (clients, [])
  | some .unknown =>
      (clients, [(sender.id, .errorMsg "Unknown message type")])

/-! ## ADS destroyer controller (`adsDestroyer.ts`)

`analyzeSpectrum` / `deployCountermeasures` spawn a Julia subprocess and
fall back to a TypeScript computation on every failure.  The subprocess
interaction is embedded as a `JuliaOutcome` environment value: julia
unavailable, spawn error, the 30s/15s kill timer, or process exit with a
code and the `JSON.parse` result of its stdout (`none` = unparseable).
`Math.sqrt`, `Math.log10` and the `Math.random()` draw stream are oracle
parameters — no claim depends on their values. -/

structure MathOracle where
  sqrt : ℚ → ℚ
  log10 : ℚ → ℚ
  random : Nat → ℚ

structure ADSThreatSignature where
  frequency_ghz : ℚ
  power_dbm : ℚ
  beam_width_deg : ℚ
  type : String
  pulse_pattern : List ℚ
deriving Repr, DecidableEq

structure ADSAnalysisResult where
  threats_detected : Nat
  threat_signatures : List ADSThreatSignature
  countermeasures_ready : Nat
  deployment_status : String
  error : Option String
deriving Repr, DecidableEq

structure ADSCountermeasureDeployment where
  threat_type : String
  countermeasure_frequencies : List ℚ
  deployment_locations : List (ℚ × ℚ)
  power_levels : List ℚ
  effectiveness : ℚ
  status : String
  timestamp : String
  error : Option String
deriving Repr, DecidableEq

structure SignalData where
  signal_real : List ℚ
  signal_imag : List ℚ
  sample_rate : ℚ
deriving Repr, DecidableEq

/-- How one subprocess run went; `closed` carries the exit code and the
`JSON.parse` result of the accumulated stdout. -/
inductive JuliaOutcome (α : Type) where
  | unavailable
  | spawnError
  | timeout
  | closed (code : ℤ) (parsed : Option α)
deriving Repr, DecidableEq

/-- Every outcome other than a clean exit with parseable stdout. -/
def juliaFailed {α : Type} : JuliaOutcome α → Bool
  | .unavailable => true
  | .spawnError => true
  | .timeout => true
  | .closed code parsed => code != 0 || parsed.isNone

/-- A JS promise either resolves or rejects. -/
inductive PromiseResult (α : Type) where
  | resolved (a : α)
  | rejected
deriving Repr, DecidableEq

/-- `const adsFrequencies = [35.0, 60.0, 77.0, 95.0]` (GHz). -/
def adsFrequencies : List ℚ := [35, 60, 77, 95]

/-- `freq >= 90 ? '95GHz_ADS' : freq >= 70 ? 'W_Band' : 'Millimeter_Wave'`. -/
def adsThreatType (freq : ℚ) : String :=
  if freq ≥ 90 then "95GHz_ADS" else if freq ≥ 70 then "W_Band"
  else "Millimeter_Wave"

/-- `ADSDestroyerController.fallbackAnalysis`.  The `i`-th pushed threat
consumes the `i`-th `Math.random()` draw; an empty `powers` list gives
JS `NaN` ratios (no threats pass the `> 2.0` threshold), modelled by the
`ℚ` convention `x / 0 = 0`. -/
def fallbackAnalysis (M : MathOracle) (s : SignalData) : ADSAnalysisResult :=
  let powers := List.zipWith
    (fun re im => M.sqrt (re * re + im * im)) s.signal_real s.signal_imag
  let avgPower := powers.sum / (powers.length : ℚ)
  let maxPower := match powers with | [] => 0 | h :: t => t.foldl max h
  let powerRatio := maxPower / avgPower
  let threats : List ADSThreatSignature :=
    if powerRatio > 2 then
      adsFrequencies.mapIdx (fun i freq =>
        { frequency_ghz := freq
          power_dbm := 20 * M.log10 maxPower - 30
          beam_width_deg := 5 + M.random i * 10
          type := adsThreatType freq
          pulse_pattern := [1/10, 2/10, 1/10] })
    else []
  { threats_detected := threats.length
    threat_signatures := threats
    countermeasures_ready := threats.length
    deployment_status := if threats.length > 0 then "READY" else "NO_THREATS"
    error := none }

/-- `ADSDestroyerController.analyzeSpectrum`: resolves with the parsed
Julia output on a clean exit, and with `fallbackAnalysis` on every
failure path; no path rejects. -/
def analyzeSpectrum (M : MathOracle) (env : JuliaOutcome ADSAnalysisResult)
    (s : SignalData) : PromiseResult ADSAnalysisResult :=
  match env with
  | .unavailable => .resolved (fallbackAnalysis M s)
  | .spawnError => .resolved (fallbackAnalysis M s)
  | .timeout => .resolved (fallbackAnalysis M s)
  | .closed code parsed =>
      if code = 0 then
        match parsed with
        | some result => .resolved result
        | none => .resolved (fallbackAnalysis M s)
      else .resolved (fallbackAnalysis M s)

/-- `this.activeDeployments` / `this.isActive`. -/
structure ADSState where
  activeDeployments : List (String × ADSCountermeasureDeployment)
  isActive : Bool
deriving Repr, DecidableEq

/-- `Map.set` for the string-keyed deployments map. -/
def strMapSet (m : List (String × ADSCountermeasureDeployment)) (k : String)
    (v : ADSCountermeasureDeployment) :
    List (String × ADSCountermeasureDeployment) :=
  if m.any (fun p => p.1 == k) then
    m.map (fun p => if p.1 == k then (k, v) else p)
  else m ++ [(k, v)]

/-- The `baseFrequencies` lookup table of `fallbackDeployment`. -/
def baseFrequencies (threatType : String) : Option (List ℚ) :=
  if threatType = "95GHz_ADS" then some [94.5, 95, 95.5]
  else if threatType = "W_Band" then some [75, 77, 81, 86, 94]
  else if threatType = "Millimeter_Wave" then some [34.8, 35, 35.2]
  else if threatType = "Directed_Energy" then some [10, 35, 60, 95]
  else none

/-- `ADSDestroyerController.fallbackDeployment`. -/
def fallbackDeployment (M : MathOracle) (now : String) (st : ADSState)
    (threatType : String) : ADSCountermeasureDeployment × ADSState :=
  let frequencies := (baseFrequencies threatType).getD [95]
  let interferenceFreqs :=
    (frequencies.map (fun f => [f - 1/10, f, f + 1/10])).flatten
  let deployment : ADSCountermeasureDeployment :=
    { threat_type := threatType
      countermeasure_frequencies := interferenceFreqs
      deployment_locations := [(0, 0), (100, 0), (-100, 0), (0, 100), (0, -100)]
      power_levels := List.replicate interferenceFreqs.length 100
      effectiveness := 3/4 + M.random 0 * (1/5)
      status := "DEPLOYED"
      timestamp := now
      error := none }
  (deployment,
    { activeDeployments := strMapSet st.activeDeployments threatType deployment
      isActive := true })

/-- `ADSDestroyerController.deployCountermeasures`. -/
def deployCountermeasures (M : MathOracle) (now : String)
    (env : JuliaOutcome ADSCountermeasureDeployment) (st : ADSState)
    (threatType : String) :
    PromiseResult ADSCountermeasureDeployment × ADSState :=
  match env with
  | .unavailable =>
      let r := fallbackDeployment M now st threatType
      (.resolved r.1, r.2)
  | .spawnError =>
      let r := fallbackDeployment M now st threatType
      (.resolved r.1, r.2)
  | .timeout =>
      let r := fallbackDeployment M now st threatType
      (.resolved r.1, r.2)
  | .closed code parsed =>
      if code = 0 then
        match parsed with
        | some result =>
            (.resolved result,
              { activeDeployments := strMapSet st.activeDeployments threatType result
                isActive := true })
        | none =>
            let r := fallbackDeployment M now st threatType
            (.resolved r.1, r.2)
      else
        let r := fallbackDeployment M now st threatType
        (.resolved r.1, r.2)

/-! ## Forensics analyzer (`forensicsAnalyzer.ts`)

SHA-256 is an oracle parameter `sha256hex`; the streaming interface
`hash.update(a); hash.update(b)` hashes the concatenation `a ++ b`.
The recording's `Date` is carried as its epoch milliseconds
(`Date.getTime()`), and `Date.prototype.toISOString` is an oracle
parameter `toISO` over epoch milliseconds; the analyzer applies it to
the recording timestamp (checksum, `recording.startTime`) and to the
shifted timestamp `getTime() + duration * 1000` (`recording.endTime`).
The wall-clock `new Date().toISOString()` instants are the `nowISO`
parameter.  The purely-constant `audioData` / `locationData` /
`deviceData` / `countersystemStatus` subrecords of the returned report
are represented by their claim-relevant constants. -/

structure ForensicRecording where
  recordingId : String
  timestamp : ℚ
  duration : ℚ
  audioFileUrl : String
  fileSize : Nat
  format : String
deriving Repr, DecidableEq

/-- The `recording` subrecord of `attackMetadata`: start/end instants
derived from the recording's timestamp and duration, plus constant
capture parameters. -/
structure RecordingMeta where
  startTime : String
  endTime : String
  sampleRate : ℚ
  bitsPerSample : ℚ
  channels : ℚ
deriving Repr, DecidableEq

structure AttackMetadata where
  detectedFrequencies : List ℚ
  primaryFrequency : ℚ
  attackerDirections : List String
  attackerPrimaryDirection : String
  attackerDistances : List ℚ
  attackerAverageDistance : ℚ
  attackIntensity : ℚ
  deviceStatus : String
  environmentalFactors : List String
  recording : RecordingMeta
deriving Repr, DecidableEq

structure ChainOfCustodyEntry where
  timestamp : String
  action : String
  operator : String
  checksumSHA256 : String
deriving Repr, DecidableEq

structure AnalyzerReport where
  id : String
  timestamp : String
  duration : ℚ
  attackMetadata : AttackMetadata
  blockedFrequencies : List ℚ
  systemEffectiveness : ℚ
  chainOfCustody : List ChainOfCustodyEntry
deriving Repr, DecidableEq

/-- `ForensicsAnalyzer.generateChecksum`: SHA-256 over
`recordingId ++ timestamp.toISOString()`. -/
def generateChecksum (sha256hex : String → String) (toISO : ℚ → String)
    (r : ForensicRecording) : String :=
  sha256hex (r.recordingId ++ toISO r.timestamp)

/-- `ForensicsAnalyzer.analyzeFrequencies`: a constant list, independent
of the recording. -/
def analyzeFrequencies (_r : ForensicRecording) : List ℚ :=
  [3500, 5100, 8400, 12200]

/-- `ForensicsAnalyzer.determinePrimaryFrequency`:
`this.analyzeFrequencies(recording)[0]`. -/
def determinePrimaryFrequency (r : ForensicRecording) : ℚ :=
  (analyzeFrequencies r).headD 0

/-- `ForensicsAnalyzer.analyzeRecording` (`uuid` models
`crypto.randomUUID()`, `nowISO` the `new Date().toISOString()` calls). -/
def analyzeRecording (sha256hex : String → String) (toISO : ℚ → String)
    (uuid nowISO : String) (r : ForensicRecording) : AnalyzerReport :=
  { id := uuid
    timestamp := nowISO
    duration := r.duration
    attackMetadata :=
      { detectedFrequencies := analyzeFrequencies r
        primaryFrequency := determinePrimaryFrequency r
        attackerDirections := ["NW", "N"]
        attackerPrimaryDirection := "NW"
        attackerDistances := [15.3, 18.2]
        attackerAverageDistance := 16.75
        attackIntensity := 85
        deviceStatus := "ACTIVE_DEFENSE"
        environmentalFactors := ["URBAN", "HIGH_DENSITY"]
        recording :=
          { startTime := toISO r.timestamp
            endTime := toISO (r.timestamp + r.duration * 1000)
            sampleRate := 48000
            bitsPerSample := 24
            channels := 2 } }
    blockedFrequencies := [3500, 5100, 8400]
    systemEffectiveness := 92
    chainOfCustody :=
      [{ timestamp := nowISO
         action := "RECORDING_CREATED"
         operator := "SENTINEL_SYSTEM"
         checksumSHA256 := generateChecksum sha256hex toISO r }] }

end Sentinel

namespace Sentinel

/-- C1: every auth middleware, on every request, calls `next()` with a
hardcoded user of id 999 and role `admin`; none of them ever rejects a
request, regardless of headers, session, or credentials. -/
theorem auth_middlewares_always_admit (req : HttpRequest) (roles : List String) :
    isAuthenticated req = .next (some defaultUser) ∧
    hasRole roles req = .next (some defaultUser) ∧
    hasSubscriptionAccess req = .next (some defaultUser) ∧
    hasMeshNetworkAccess req = .next (some defaultUser) ∧
    forceEmergencyAuth req = .next (some emergencyUser) ∧
    defaultUser.id = 999 ∧ defaultUser.role = "admin" ∧
    emergencyUser.id = 999 ∧ emergencyUser.role = "admin" := by
  refine ⟨rfl, rfl, rfl, rfl, rfl, rfl, rfl, rfl, rfl⟩

/-! ### Lemmas about the JS `Map` model -/

theorem mapHas_eq_false_iff_get_none {α : Type} {m : JsMap α} {k : Nat} :
    mapHas m k = false ↔ mapGet m k = none := by
  induction m with
  | nil => simp [mapHas, mapGet]
  | cons p t ih =>
      by_cases hp : p.1 = k
      · simp [mapHas, mapGet, hp]
      · simp only [mapHas, mapGet, if_neg hp]
        exact ih

theorem mapGet_overwrite_self {α : Type} (m : JsMap α) (k : Nat) (v : α)
    (h : mapHas m k = true) :
    mapGet (m.map (fun p => if p.1 = k then (k, v) else p)) k = some v := by
  induction m with
  | nil => simp [mapHas] at h
  | cons p t ih =>
      by_cases hp : p.1 = k
      · simp [mapGet, hp]
      · simp only [mapHas, if_neg hp] at h
        simp only [List.map_cons, if_neg hp, mapGet]
        exact ih h

theorem mapGet_overwrite_ne {α : Type} (m : JsMap α) (k k' : Nat) (v : α)
    (hne : k' ≠ k) :
    mapGet (m.map (fun p => if p.1 = k then (k, v) else p)) k' = mapGet m k' := by
  induction m with
  | nil => rfl
  | cons p t ih =>
      by_cases hp : p.1 = k
      · simp only [List.map_cons, if_pos hp, mapGet]
        rw [if_neg (Ne.symm hne), if_neg (by rw [hp]; exact Ne.symm hne)]
        exact ih
      · simp only [List.map_cons, if_neg hp, mapGet]
        by_cases hq : p.1 = k'
        · rw [if_pos hq, if_pos hq]
        · rw [if_neg hq, if_neg hq]
          exact ih

theorem mapGet_append_single_self {α : Type} (m : JsMap α) (k : Nat) (v : α)
    (h : mapHas m k = false) : mapGet (m ++ [(k, v)]) k = some v := by
  induction m with
  | nil => simp [mapGet]
  | cons p t ih =>
      by_cases hp : p.1 = k
      · simp [mapHas, hp] at h
      · simp only [mapHas, if_neg hp] at h
        simp only [List.cons_append, mapGet, if_neg hp]
        exact ih h

theorem mapGet_append_single_ne {α : Type} (m : JsMap α) (k k' : Nat) (v : α)
    (hne : k' ≠ k) : mapGet (m ++ [(k, v)]) k' = mapGet m k' := by
  induction m with
  | nil => simp [mapGet, Ne.symm hne]
  | cons p t ih =>
      simp only [List.cons_append, mapGet]
      by_cases hq : p.1 = k'
      · rw [if_pos hq, if_pos hq]
      · rw [if_neg hq, if_neg hq]
        exact ih

/-- `get` after `set` at the written key. -/
theorem mapGet_set_self {α : Type} (m : JsMap α) (k : Nat) (v : α) :
    mapGet (mapSet m k v) k = some v := by
  unfold mapSet
  by_cases h : mapHas m k = true
  · rw [if_pos h]; exact mapGet_overwrite_self m k v h
  · rw [Bool.not_eq_true] at h
    rw [if_neg (by simp [h])]
    exact mapGet_append_single_self m k v h

/-- `set` leaves every other key untouched. -/
theorem mapGet_set_ne {α : Type} (m : JsMap α) (k k' : Nat) (v : α)
    (hne : k' ≠ k) : mapGet (mapSet m k v) k' = mapGet m k' := by
  unfold mapSet
  by_cases h : mapHas m k = true
  · rw [if_pos h]; exact mapGet_overwrite_ne m k k' v hne
  · rw [Bool.not_eq_true] at h
    rw [if_neg (by simp [h])]
    exact mapGet_append_single_ne m k k' v hne

theorem mapGet_erase_ne {α : Type} (m : JsMap α) (k k' : Nat)
    (hne : k' ≠ k) : mapGet (mapErase m k) k' = mapGet m k' := by
  induction m with
  | nil => rfl
  | cons p t ih =>
      by_cases hp : p.1 = k
      · simp only [mapErase, if_pos hp, mapGet]
        rw [if_neg (by rw [hp]; exact Ne.symm hne)]
        exact ih
      · simp only [mapErase, if_neg hp, mapGet]
        by_cases hq : p.1 = k'
        · rw [if_pos hq, if_pos hq]
        · rw [if_neg hq, if_neg hq]
          exact ih

/-- `delete` leaves every other key untouched. -/
theorem mapGet_delete_ne {α : Type} (m : JsMap α) (k k' : Nat)
    (hne : k' ≠ k) : mapGet (mapDelete m k).2 k' = mapGet m k' := by
  unfold mapDelete
  by_cases h : mapHas m k = true
  · rw [if_pos h]
    exact mapGet_erase_ne m k k' hne
  · rw [Bool.not_eq_true] at h
    rw [if_neg (by simp [h])]

/-- `delete` on a missing key reports `false` and does nothing. -/
theorem mapDelete_missing {α : Type} (m : JsMap α) (k : Nat)
    (h : mapGet m k = none) : mapDelete m k = (false, m) := by
  unfold mapDelete
  rw [mapHas_eq_false_iff_get_none.mpr h]
  simp

theorem mapHas_eq_false_of_all_lt {α : Type} {m : JsMap α} {c : Nat}
    (h : m.all (fun p => p.1 < c) = true) : mapHas m c = false := by
  induction m with
  | nil => rfl
  | cons p t ih =>
      simp only [List.all_cons, Bool.and_eq_true, decide_eq_true_eq] at h
      have hp : p.1 ≠ c := Nat.ne_of_lt h.1
      simp only [mapHas, if_neg hp]
      exact ih h.2

/-- Every key below the bound stays below the incremented bound after
writing at the bound itself. -/
theorem mapSet_all_lt_succ {α : Type} (m : JsMap α) (c : Nat) (v : α)
    (h : m.all (fun p => p.1 < c) = true) :
    (mapSet m c v).all (fun p => p.1 < c + 1) = true := by
  unfold mapSet
  rw [mapHas_eq_false_of_all_lt h]
  simp only [Bool.false_eq_true, if_false, List.all_append, List.all_cons,
    List.all_nil, Bool.and_eq_true]
  refine ⟨?_, by simp⟩
  rw [List.all_eq_true] at h ⊢
  intro p hp
  have := h p hp
  simp only [decide_eq_true_eq] at this ⊢
  omega

/-- Under the bound invariant the bound key itself is absent. -/
theorem mapGet_at_bound_eq_none {α : Type} (m : JsMap α) (c : Nat)
    (h : m.all (fun p => p.1 < c) = true) : mapGet m c = none :=
  mapHas_eq_false_iff_get_none.mp (mapHas_eq_false_of_all_lt h)

/-- C5: a storage create followed by a lookup of the returned id yields
exactly the created record, whose fields preserve the submitted payload
(`||`-defaulted fields preserve any truthy submitted value) and whose
defaults are populated. -/
theorem create_then_get_returns_created
    (now : Nat) (st : MemStorage) (r : NewForensicReport)
    (bf : NewBlockedFrequency) :
    getReport (createReport now st r).2 (createReport now st r).1.id
      = some (createReport now st r).1 ∧
    (createReport now st r).1.userId = r.userId ∧
    (createReport now st r).1.title = r.title ∧
    (createReport now st r).1.frequencyData = r.frequencyData ∧
    (createReport now st r).1.locationData = r.locationData ∧
    (createReport now st r).1.deviceData = r.deviceData ∧
    (createReport now st r).1.mlClassification = r.mlClassification ∧
    (createReport now st r).1.reportData = r.reportData ∧
    (createReport now st r).1.createdAt = now ∧
    (∀ s, r.description = some s → s ≠ "" →
      (createReport now st r).1.description = some s) ∧
    (∀ t, r.timestamp = some t → (createReport now st r).1.timestamp = t) ∧
    (r.timestamp = none → (createReport now st r).1.timestamp = now) ∧
    getBlockedFrequency (createBlockedFrequency now st bf).2
        (createBlockedFrequency now st bf).1.id
      = some (createBlockedFrequency now st bf).1 ∧
    (createBlockedFrequency now st bf).1.userId = bf.userId ∧
    (createBlockedFrequency now st bf).1.frequency = bf.frequency ∧
    (createBlockedFrequency now st bf).1.bandwidth = bf.bandwidth ∧
    (∀ b, bf.isCustom = some b →
      (createBlockedFrequency now st bf).1.isCustom = b) ∧
    (bf.isCustom = none → (createBlockedFrequency now st bf).1.isCustom = false) := by
  refine ⟨?_, rfl, rfl, rfl, rfl, rfl, rfl, rfl, rfl, ?_, ?_, ?_, ?_, rfl, rfl,
    rfl, ?_, ?_⟩
  · exact mapGet_set_self st.reports st.reportIdCounter _
  · intro s hs hne
    simp [createReport, jsStrOr, hs, hne]
  · intro t ht
    simp [createReport, ht]
  · intro ht
    simp [createReport, ht]
  · exact mapGet_set_self st.blockedFrequencies st.blockedFrequencyIdCounter _
  · intro b hb
    simp [createBlockedFrequency, hb]
  · intro hb
    simp [createBlockedFrequency, hb]

/-- C10: creates hand out the current counter as the new id and bump the
counter, so (under the counter invariant, which every create preserves)
the assigned key is fresh — nothing is overwritten and successive ids are
distinct — while update/delete at one id leave every other id's record
untouched. -/
theorem memStorage_counter_invariant
    (st : MemStorage) (now now2 : Nat) (nu : NewUser) (r r2 : NewForensicReport)
    (bf : NewBlockedFrequency) (u : UpdateForensicReport)
    (ubf : UpdateBlockedFrequency) (id k : Nat)
    (hctr : countersOK st = true) (hk : k ≠ id) :
    ((createUser now st nu).1.id = st.userIdCounter ∧
     (createUser now st nu).2.userIdCounter = st.userIdCounter + 1 ∧
     countersOK (createUser now st nu).2 = true) ∧
    ((createReport now st r).1.id = st.reportIdCounter ∧
     (createReport now st r).2.reportIdCounter = st.reportIdCounter + 1 ∧
     countersOK (createReport now st r).2 = true) ∧
    ((createBlockedFrequency now st bf).1.id = st.blockedFrequencyIdCounter ∧
     (createBlockedFrequency now st bf).2.blockedFrequencyIdCounter
        = st.blockedFrequencyIdCounter + 1 ∧
     countersOK (createBlockedFrequency now st bf).2 = true) ∧
    (getUser st st.userIdCounter = none ∧
     getReport st st.reportIdCounter = none ∧
     getBlockedFrequency st st.blockedFrequencyIdCounter = none) ∧
    (createReport now2 (createReport now st r).2 r2).1.id
        ≠ (createReport now st r).1.id ∧
    (getReport (updateReport st id u).2 k = getReport st k ∧
     getReport (deleteReport st id).2 k = getReport st k ∧
     getBlockedFrequency (updateBlockedFrequency st id ubf).2 k
        = getBlockedFrequency st k ∧
     getBlockedFrequency (deleteBlockedFrequency st id).2 k
        = getBlockedFrequency st k) := by
  simp only [countersOK, Bool.and_eq_true] at hctr
  obtain ⟨⟨hu, hr⟩, hb⟩ := hctr
  refine ⟨⟨rfl, rfl, ?_⟩, ⟨rfl, rfl, ?_⟩, ⟨rfl, rfl, ?_⟩, ⟨?_, ?_, ?_⟩, ?_,
    ?_, ?_, ?_, ?_⟩
  · simp only [countersOK, createUser, Bool.and_eq_true]
    exact ⟨⟨mapSet_all_lt_succ _ _ _ hu, hr⟩, hb⟩
  · simp only [countersOK, createReport, Bool.and_eq_true]
    exact ⟨⟨hu, mapSet_all_lt_succ _ _ _ hr⟩, hb⟩
  · simp only [countersOK, createBlockedFrequency, Bool.and_eq_true]
    exact ⟨⟨hu, hr⟩, mapSet_all_lt_succ _ _ _ hb⟩
  · exact mapGet_at_bound_eq_none _ _ hu
  · exact mapGet_at_bound_eq_none _ _ hr
  · exact mapGet_at_bound_eq_none _ _ hb
  · simp [createReport]
  · unfold updateReport
    cases hx : mapGet st.reports id with
    | none => rfl
    | some rep => exact mapGet_set_ne st.reports id k _ hk
  · unfold deleteReport
    exact mapGet_delete_ne st.reports id k hk
  · unfold updateBlockedFrequency
    cases hx : mapGet st.blockedFrequencies id with
    | none => rfl
    | some f => exact mapGet_set_ne st.blockedFrequencies id k _ hk
  · unfold deleteBlockedFrequency
    exact mapGet_delete_ne st.blockedFrequencies id k hk

/-- C4: on an id absent from storage, the report and blocked-frequency
GET/PUT/DELETE routes answer 404, and the underlying storage update
returns `undefined` (resp. delete returns `false`) without changing any
stored state. -/
theorem missing_id_returns_404
    (user : AuthUser) (st : MemStorage) (id : Nat)
    (u : UpdateForensicReport) (ubf : UpdateBlockedFrequency)
    (hr : getReport st id = none)
    (hb : getBlockedFrequency st id = none) :
    getReportRoute user (some id) st = (404, none) ∧
    deleteReportRoute user (some id) st = (404, st) ∧
    putBlockedFrequencyRoute user (some id) ubf st = (404, none, st) ∧
    deleteBlockedFrequencyRoute user (some id) st = (404, st) ∧
    updateReport st id u = (none, st) ∧
    deleteReport st id = (false, st) ∧
    updateBlockedFrequency st id ubf = (none, st) ∧
    deleteBlockedFrequency st id = (false, st) := by
  have hr' : mapGet st.reports id = none := hr
  have hb' : mapGet st.blockedFrequencies id = none := hb
  refine ⟨?_, ?_, ?_, ?_, ?_, ?_, ?_, ?_⟩
  · simp [getReportRoute, getReport, hr']
  · simp [deleteReportRoute, getReport, hr']
  · simp [putBlockedFrequencyRoute, getBlockedFrequency, hb']
  · simp [deleteBlockedFrequencyRoute, getBlockedFrequency, hb']
  · simp [updateReport, hr']
  · simp [deleteReport, mapDelete_missing st.reports id hr']
  · simp [updateBlockedFrequency, hb']
  · simp [deleteBlockedFrequency, mapDelete_missing st.blockedFrequencies id hb']

/-- C6: when the request went through `isAuthenticated` or
`forceEmergencyAuth` — so `req.user` is one of the two hardcoded admins —
no report or blocked-frequency route can answer 403: the ownership-check
branches are unreachable. -/
theorem admin_never_403 (u : AuthUser) (idParam : Option Nat)
    (st : MemStorage) (body : UpdateBlockedFrequency)
    (h : u = defaultUser ∨ u = emergencyUser) :
    (getReportRoute u idParam st).1 ≠ 403 ∧
    (deleteReportRoute u idParam st).1 ≠ 403 ∧
    (putBlockedFrequencyRoute u idParam body st).1 ≠ 403 ∧
    (deleteBlockedFrequencyRoute u idParam st).1 ≠ 403 := by
  have hrole : u.role = "admin" := by
    rcases h with h | h <;> rw [h] <;> rfl
  refine ⟨?_, ?_, ?_, ?_⟩
  · cases idParam with
    | none => simp [getReportRoute]
    | some id =>
        cases hx : getReport st id with
        | none => simp [getReportRoute, hx]
        | some rep =>
            simp only [getReportRoute, hx]
            rw [if_neg (fun hc => hc.1 hrole)]
            simp
  · cases idParam with
    | none => simp [deleteReportRoute]
    | some id =>
        cases hx : getReport st id with
        | none => simp [deleteReportRoute, hx]
        | some rep =>
            simp only [deleteReportRoute, hx]
            rw [if_neg (fun hc => hc.1 hrole)]
            cases hdel : (deleteReport st id).1 <;> simp [hdel]
  · cases idParam with
    | none => simp [putBlockedFrequencyRoute]
    | some id =>
        cases hx : getBlockedFrequency st id with
        | none => simp [putBlockedFrequencyRoute, hx]
        | some f =>
            simp only [putBlockedFrequencyRoute, hx]
            rw [if_neg (fun hc => hc.1 hrole)]
            cases hupd : (updateBlockedFrequency st id body).1 <;> simp [hupd]
  · cases idParam with
    | none => simp [deleteBlockedFrequencyRoute]
    | some id =>
        cases hx : getBlockedFrequency st id with
        | none => simp [deleteBlockedFrequencyRoute, hx]
        | some f =>
            simp only [deleteBlockedFrequencyRoute, hx]
            rw [if_neg (fun hc => hc.1 hrole)]
            cases hdel : (deleteBlockedFrequency st id).1 <;> simp [hdel]

/-- C5 witness: the round trip at a concrete report and blocked
frequency on the fresh store. -/
theorem create_then_get_witness :
    getReport (createReport 7 emptyStorage
        ⟨1, "t", some "d", none, none, none, none, none, some 5⟩).2
      (createReport 7 emptyStorage
        ⟨1, "t", some "d", none, none, none, none, none, some 5⟩).1.id
      = some (createReport 7 emptyStorage
        ⟨1, "t", some "d", none, none, none, none, none, some 5⟩).1 ∧
    (createReport 7 emptyStorage
        ⟨1, "t", some "d", none, none, none, none, none, some 5⟩).1.description
      = some "d" ∧
    (createReport 7 emptyStorage
        ⟨1, "t", some "d", none, none, none, none, none, some 5⟩).1.timestamp = 5 ∧
    (createBlockedFrequency 7 emptyStorage
        ⟨1, 100, 10, none, none, some true⟩).1.isCustom = true := by
  obtain ⟨h1, _, _, _, _, _, _, _, _, hdesc, hts, _, _, _, _, _, hcust, _⟩ :=
    create_then_get_returns_created 7 emptyStorage
      ⟨1, "t", some "d", none, none, none, none, none, some 5⟩
      ⟨1, 100, 10, none, none, some true⟩
  exact ⟨h1, hdesc "d" rfl (by decide), hts 5 rfl, hcust true rfl⟩

/-- C10 witness: the counter invariant applied to the fresh store with a
delete at id 3 observed at id 2. -/
theorem memStorage_counter_invariant_witness :
    countersOK emptyStorage = true ∧
    (createUser 7 emptyStorage ⟨"u", "p", "e", none, none, none⟩).1.id = 1 ∧
    getReport (deleteReport emptyStorage 3).2 2 = getReport emptyStorage 2 := by
  obtain ⟨hA, _, _, _, _, hF⟩ :=
    memStorage_counter_invariant emptyStorage 7 8
      ⟨"u", "p", "e", none, none, none⟩
      ⟨1, "t", none, none, none, none, none, none, none⟩
      ⟨1, "t2", none, none, none, none, none, none, none⟩
      ⟨1, 100, 10, none, none, none⟩
      ⟨none, none, none, none, none, none, none, none, none⟩
      ⟨none, none, none, none, none, none⟩
      3 2 (by decide) (by decide)
  exact ⟨by decide, hA.1, hF.2.1⟩

/-- C4 witness: id 5 is absent from the fresh store; the routes answer
404 and the failed delete changes nothing. -/
theorem missing_id_returns_404_witness :
    getReport emptyStorage 5 = none ∧
    getBlockedFrequency emptyStorage 5 = none ∧
    getReportRoute defaultUser (some 5) emptyStorage = (404, none) ∧
    deleteReport emptyStorage 5 = (false, emptyStorage) := by
  obtain ⟨h1, _, _, _, _, h6, _, _⟩ :=
    missing_id_returns_404 defaultUser emptyStorage 5
      ⟨none, none, none, none, none, none, none, none, none⟩
      ⟨none, none, none, none, none, none⟩ rfl rfl
  exact ⟨rfl, rfl, h1, h6⟩

/-- C6 witness: the default admin can never see a 403 from the report
GET route. -/
theorem admin_never_403_witness :
    (defaultUser = defaultUser ∨ defaultUser = emergencyUser) ∧
    (getReportRoute defaultUser (some 1) emptyStorage).1 ≠ 403 := by
  obtain ⟨h1, _, _, _⟩ :=
    admin_never_403 defaultUser (some 1) emptyStorage
      ⟨none, none, none, none, none, none⟩ (Or.inl rfl)
  exact ⟨Or.inl rfl, h1⟩

/-- C7: an unparseable WebSocket payload makes the handler send exactly
one `{type: 'error', message: 'Invalid message format'}` back to the
sender — no broadcast to anyone else, no exception, and the connected
client set is unchanged. -/
theorem ws_invalid_json_error_to_sender (clients : List Client)
    (sender : Client) :
    handleWsMessage clients sender none
      = (clients, [(sender.id, .errorMsg "Invalid message format")]) := rfl

/-- C2 counterexample: with two open clients and the first one sending
`frequency_detected`, the sender itself (id 0) is among the recipients
of the `frequency_alert` broadcast — refuting the claim that the sender
is excluded. -/
theorem frequency_alert_reaches_sender_counterexample :
    (0, WsOut.frequencyAlert 5 9) ∈
      (handleWsMessage [⟨0, true⟩, ⟨1, true⟩] ⟨0, true⟩
        (some (.frequencyDetected 5 9))).2 := by
  decide

/-- C2 (amended): the `frequency_alert` broadcast goes to exactly the
connected clients whose socket is open — the sender included — and the
client set is unchanged. -/
theorem frequency_alert_broadcast_all_open (clients : List Client)
    (sender : Client) (f conf : ℚ) :
    (handleWsMessage clients sender (some (.frequencyDetected f conf))).1
      = clients ∧
    (∀ c, c ∈ clients → c.isOpen = true →
      (c.id, WsOut.frequencyAlert f conf) ∈
        (handleWsMessage clients sender (some (.frequencyDetected f conf))).2) ∧
    (∀ p, p ∈ (handleWsMessage clients sender
        (some (.frequencyDetected f conf))).2 →
      p.2 = WsOut.frequencyAlert f conf ∧
      ∃ c, c ∈ clients ∧ c.isOpen = true ∧ p.1 = c.id) := by
  refine ⟨rfl, ?_, ?_⟩
  · intro c hc hopen
    show (c.id, _) ∈ broadcastOpen clients _
    unfold broadcastOpen
    exact List.mem_map.mpr ⟨c, List.mem_filter.mpr ⟨hc, hopen⟩, rfl⟩
  · intro p hp
    have hp' : p ∈ broadcastOpen clients (.frequencyAlert f conf) := hp
    unfold broadcastOpen at hp'
    rcases List.mem_map.mp hp' with ⟨c, hcf, rfl⟩
    rcases List.mem_filter.mp hcf with ⟨hc, hopen⟩
    exact ⟨rfl, c, hc, hopen, rfl⟩

/-- C2 witness: the open non-sender client (id 1) receives the alert in
the two-client configuration. -/
theorem frequency_alert_broadcast_witness :
    (⟨1, true⟩ : Client) ∈ [(⟨0, true⟩ : Client), ⟨1, true⟩] ∧
    (1, WsOut.frequencyAlert 5 9) ∈
      (handleWsMessage [⟨0, true⟩, ⟨1, true⟩] ⟨0, true⟩
        (some (.frequencyDetected 5 9))).2 := by
  obtain ⟨_, h2, _⟩ :=
    frequency_alert_broadcast_all_open [⟨0, true⟩, ⟨1, true⟩] ⟨0, true⟩ 5 9
  exact ⟨by decide, h2 ⟨1, true⟩ (by decide) rfl⟩

/-! ### Lemmas about the effectiveness scores -/

theorem jsRound_le_jsRound {x y : ℚ} (h : x ≤ y) : jsRound x ≤ jsRound y :=
  Int.floor_le_floor (by linarith)

theorem effectivenessScore_le_100 (i : ℚ) (ai : Bool) :
    effectivenessScore i ai ≤ 100 := by
  have h1 : effectivenessScore i ai ≤ jsRound 100 :=
    jsRound_le_jsRound (min_le_left _ _)
  have h2 : jsRound (100 : ℚ) = 100 := by norm_num [jsRound]
  omega

theorem effectivenessScore_nonneg (i : ℚ) (ai : Bool) (hi : 0 ≤ i) :
    0 ≤ effectivenessScore i ai := by
  have hb : (0 : ℚ) ≤ (if ai then 15 else 0) := by split_ifs <;> norm_num
  have harg : (50 : ℚ) ≤ min 100 (50 + i * (1/2) + (if ai then 15 else 0)) :=
    le_min (by norm_num) (by linarith)
  have h1 : jsRound 50 ≤ effectivenessScore i ai := jsRound_le_jsRound harg
  have h2 : jsRound (50 : ℚ) = 50 := by norm_num [jsRound]
  omega

theorem meshBoost_nonneg (ids : Option (List String)) : 0 ≤ meshBoost ids := by
  cases ids with
  | none => simp [meshBoost]
  | some l =>
      simp only [meshBoost]
      split_ifs
      · exact le_min (by norm_num) (by positivity)
      · exact le_refl 0

theorem meshBoost_mono (l1 l2 : List String) (h : l1.length ≤ l2.length) :
    meshBoost (some l1) ≤ meshBoost (some l2) := by
  simp only [meshBoost]
  split_ifs with h1 h2 h2
  · refine min_le_min le_rfl ?_
    have : (l1.length : ℤ) ≤ (l2.length : ℤ) := by exact_mod_cast h
    linarith
  · omega
  · exact le_min (by norm_num) (by positivity)
  · exact le_refl 0

/-- C9 counterexample: (i) with exactly one device id the code's mesh
boost is 0, not `min(20, 2·1)`; (ii) a negative intensity drives the
score below 0, refuting the unconditional `[0, 100]` bound; (iii) a
literal intensity of 0 is falsy in JS and defaults to 75, so the claimed
formula over the raw intensity is off there; and (iv) at that same
message intensity 0 the mesh score (raw intensity, two devices: 54) is
strictly below the single-device score (defaulted to 75: 88), refuting
the unqualified mesh-dominates-single clause. -/
theorem effectiveness_score_counterexample :
    meshEffectivenessScore 50 false (some ["d1"])
      ≠ min 100 (effectivenessScore 50 false + min 20 (2 * 1)) ∧
    effectivenessScore (-200) false < 0 ∧
    effectivenessScore (jsNumOr (some 0) 75) false
      ≠ jsRound (min 100 (50 + 0 * (1/2) + 0)) ∧
    meshEffectivenessScore 0 false (some ["d1", "d2"])
      < effectivenessScore (jsNumOr (some 0) 75) false := by
  refine ⟨?_, ?_, ?_, ?_⟩ <;>
    norm_num [meshEffectivenessScore, effectivenessScore, meshBoost,
      jsRound, jsNumOr]

/-- C9 (amended): the single-device score is
`round(min(100, 50 + 0.5·I + (aiAssisted ? 15 : 0)))` over the JS-falsy
defaulted intensity `I` (absent or 0 becomes 75); the mesh score is
`min(100, base + boost)` over the raw message intensity, with
`boost = min(20, 2n)` only for `n > 1` device ids and `0` otherwise;
when both messages carry the same truthy (nonzero) intensity and the
same aiAssisted flag, the mesh score dominates the single-device score;
both scores are at most 100 and, for nonnegative intensity,
nonnegative; and the mesh score is monotone in the number of device
ids. -/
theorem neutralize_effectiveness_scores
    (iOpt : Option ℚ) (i : ℚ) (ai : Bool) (ids : Option (List String))
    (l1 l2 : List String) (hlen : l1.length ≤ l2.length) (hi : 0 ≤ i) :
    effectivenessScore (jsNumOr iOpt 75) ai
      = jsRound (min 100 (50 + jsNumOr iOpt 75 * (1/2) +
          (if ai then 15 else 0))) ∧
    meshEffectivenessScore i ai ids
      = min 100 (effectivenessScore i ai + meshBoost ids) ∧
    (i ≠ 0 →
      effectivenessScore (jsNumOr (some i) 75) ai
        ≤ meshEffectivenessScore i ai ids) ∧
    effectivenessScore i ai ≤ 100 ∧
    meshEffectivenessScore i ai ids ≤ 100 ∧
    0 ≤ effectivenessScore i ai ∧
    0 ≤ meshEffectivenessScore i ai ids ∧
    meshEffectivenessScore i ai (some l1)
      ≤ meshEffectivenessScore i ai (some l2) := by
  refine ⟨rfl, rfl, ?_, effectivenessScore_le_100 i ai, ?_, ?_, ?_, ?_⟩
  · intro hi0
    have hdef : jsNumOr (some i) 75 = i := by simp [jsNumOr, hi0]
    rw [hdef]
    exact le_min (effectivenessScore_le_100 i ai)
      (le_add_of_nonneg_right (meshBoost_nonneg ids))
  · exact min_le_left _ _
  · exact effectivenessScore_nonneg i ai hi
  · exact le_min (by norm_num)
      (add_nonneg (effectivenessScore_nonneg i ai hi) (meshBoost_nonneg ids))
  · exact min_le_min le_rfl
      (add_le_add_left (meshBoost_mono l1 l2 hlen) _)

/-- C9 witness: concrete evaluation at truthy intensity 60, AI-assisted,
with one-, two- and three-device mesh configurations. -/
theorem neutralize_effectiveness_scores_witness :
    (["a"].length ≤ ["a", "b"].length) ∧ ((0 : ℚ) ≤ 60) ∧ ((60 : ℚ) ≠ 0) ∧
    effectivenessScore 60 true ≤ 100 ∧
    effectivenessScore (jsNumOr (some 60) 75) true
      ≤ meshEffectivenessScore 60 true (some ["a", "b", "c"]) ∧
    meshEffectivenessScore 60 true (some ["a"])
      ≤ meshEffectivenessScore 60 true (some ["a", "b"]) := by
  obtain ⟨_, _, h3, h4, _, _, _, h8⟩ :=
    neutralize_effectiveness_scores (some 80) 60 true (some ["a", "b", "c"])
      ["a"] ["a", "b"] (by decide) (by norm_num)
  exact ⟨by decide, by norm_num, by norm_num, h4, h3 (by norm_num), h8⟩

/-- C3: `analyzeSpectrum` and `deployCountermeasures` never reject; on
every failure path (julia unavailable, spawn error, timeout, non-zero
exit, unparseable stdout) they resolve with the TypeScript fallback,
which is a success-shaped payload (`error` unset, status `DEPLOYED`). -/
theorem ads_controller_always_resolves
    (M : MathOracle) (envA : JuliaOutcome ADSAnalysisResult)
    (envD : JuliaOutcome ADSCountermeasureDeployment)
    (s : SignalData) (st : ADSState) (t now : String) :
    analyzeSpectrum M envA s ≠ .rejected ∧
    (juliaFailed envA = true →
      analyzeSpectrum M envA s = .resolved (fallbackAnalysis M s)) ∧
    (deployCountermeasures M now envD st t).1 ≠ .rejected ∧
    (juliaFailed envD = true →
      (deployCountermeasures M now envD st t).1
        = .resolved (fallbackDeployment M now st t).1) ∧
    (fallbackAnalysis M s).error = none ∧
    (fallbackDeployment M now st t).1.error = none ∧
    (fallbackDeployment M now st t).1.status = "DEPLOYED" := by
  refine ⟨?_, ?_, ?_, ?_, rfl, rfl, rfl⟩
  · cases envA with
    | unavailable => simp [analyzeSpectrum]
    | spawnError => simp [analyzeSpectrum]
    | timeout => simp [analyzeSpectrum]
    | closed code parsed =>
        simp only [analyzeSpectrum]
        split_ifs <;> cases parsed <;> simp
  · intro h
    cases envA with
    | unavailable => rfl
    | spawnError => rfl
    | timeout => rfl
    | closed code parsed =>
        simp only [juliaFailed, Bool.or_eq_true, bne_iff_ne, ne_eq,
          Option.isNone_iff_eq_none] at h
        simp only [analyzeSpectrum]
        by_cases hc : code = 0
        · rcases h with h | h
          · exact absurd hc h
          · subst h
            rw [if_pos hc]
        · rw [if_neg hc]
  · cases envD with
    | unavailable => simp [deployCountermeasures]
    | spawnError => simp [deployCountermeasures]
    | timeout => simp [deployCountermeasures]
    | closed code parsed =>
        simp only [deployCountermeasures]
        split_ifs <;> cases parsed <;> simp
  · intro h
    cases envD with
    | unavailable => rfl
    | spawnError => rfl
    | timeout => rfl
    | closed code parsed =>
        simp only [juliaFailed, Bool.or_eq_true, bne_iff_ne, ne_eq,
          Option.isNone_iff_eq_none] at h
        simp only [deployCountermeasures]
        by_cases hc : code = 0
        · rcases h with h | h
          · exact absurd hc h
          · subst h
            rw [if_pos hc]
        · rw [if_neg hc]

/-- C3 witness: on a concrete timeout the analysis and the deployment
both resolve with their fallbacks. -/
theorem ads_controller_always_resolves_witness :
    juliaFailed (JuliaOutcome.timeout : JuliaOutcome ADSAnalysisResult) = true ∧
    analyzeSpectrum ⟨fun _ => 0, fun _ => 0, fun _ => 0⟩ .timeout ⟨[], [], 1000⟩
      = .resolved (fallbackAnalysis ⟨fun _ => 0, fun _ => 0, fun _ => 0⟩
          ⟨[], [], 1000⟩) ∧
    (deployCountermeasures ⟨fun _ => 0, fun _ => 0, fun _ => 0⟩ "T" .timeout
        ⟨[], false⟩ "95GHz_ADS").1
      = .resolved (fallbackDeployment ⟨fun _ => 0, fun _ => 0, fun _ => 0⟩ "T"
          ⟨[], false⟩ "95GHz_ADS").1 := by
  obtain ⟨_, h2, _, h4, _, _, _⟩ :=
    ads_controller_always_resolves ⟨fun _ => 0, fun _ => 0, fun _ => 0⟩
      .timeout .timeout ⟨[], [], 1000⟩ ⟨[], false⟩ "95GHz_ADS" "T"
  exact ⟨rfl, h2 rfl, h4 rfl⟩

/-- C8: the analyzer's detection fields are the constants
`[3500, 5100, 8400, 12200]` / `3500` regardless of the recording, and
the chain-of-custody checksum depends only on `recordingId` and the
recording timestamp: two recordings agreeing on those two fields get the
same checksum and the same detection fields (the rest of
`attackMetadata` may differ — its `recording.endTime` depends on the
duration). -/
theorem forensics_detection_independent_of_audio
    (sha256hex : String → String) (toISO : ℚ → String)
    (uuid1 uuid2 now1 now2 : String) (r1 r2 : ForensicRecording)
    (hid : r1.recordingId = r2.recordingId)
    (hts : r1.timestamp = r2.timestamp) :
    (analyzeRecording sha256hex toISO uuid1 now1 r1).attackMetadata.detectedFrequencies
      = [3500, 5100, 8400, 12200] ∧
    (analyzeRecording sha256hex toISO uuid1 now1 r1).attackMetadata.primaryFrequency
      = 3500 ∧
    (analyzeRecording sha256hex toISO uuid1 now1 r1).attackMetadata.detectedFrequencies
      = (analyzeRecording sha256hex toISO uuid2 now2 r2).attackMetadata.detectedFrequencies ∧
    (analyzeRecording sha256hex toISO uuid1 now1 r1).attackMetadata.primaryFrequency
      = (analyzeRecording sha256hex toISO uuid2 now2 r2).attackMetadata.primaryFrequency ∧
    generateChecksum sha256hex toISO r1 = generateChecksum sha256hex toISO r2 ∧
    ((analyzeRecording sha256hex toISO uuid1 now1 r1).chainOfCustody.map
        (fun e => e.checksumSHA256))
      = ((analyzeRecording sha256hex toISO uuid2 now2 r2).chainOfCustody.map
        (fun e => e.checksumSHA256)) := by
  have hsum : generateChecksum sha256hex toISO r1
      = generateChecksum sha256hex toISO r2 := by
    unfold generateChecksum
    rw [hid, hts]
  refine ⟨rfl, rfl, rfl, rfl, hsum, ?_⟩
  simp [analyzeRecording, hsum]

/-- C8 witness: two recordings sharing `recordingId`/timestamp but with
different audio blobs, durations and formats get the same checksum and
detection fields. -/
theorem forensics_detection_witness :
    (⟨"rec", 1000, 10, "urlA", 1, "wav"⟩ : ForensicRecording).recordingId
      = (⟨"rec", 1000, 20, "urlB", 2, "mp3"⟩ : ForensicRecording).recordingId ∧
    generateChecksum (fun x => x) (fun _ => "iso")
        ⟨"rec", 1000, 10, "urlA", 1, "wav"⟩
      = generateChecksum (fun x => x) (fun _ => "iso")
        ⟨"rec", 1000, 20, "urlB", 2, "mp3"⟩ ∧
    (analyzeRecording (fun x => x) (fun _ => "iso") "u1" "n1"
        ⟨"rec", 1000, 10, "urlA", 1, "wav"⟩).attackMetadata.primaryFrequency
      = 3500 := by
  obtain ⟨_, h2, _, _, h5, _⟩ :=
    forensics_detection_independent_of_audio (fun x => x) (fun _ => "iso")
      "u1" "u2" "n1" "n2"
      ⟨"rec", 1000, 10, "urlA", 1, "wav"⟩ ⟨"rec", 1000, 20, "urlB", 2, "mp3"⟩
      rfl rfl
  exact ⟨rfl, h5, h2⟩

end Sentinel
